import Mathlib

set_option autoImplicit false

/-!
Shallow embedding of the session-management core of the asynchronous
bidirectional-streaming gRPC greeting server, translated from
src/server/GreetingServer.cc and src/common/type.cc.

The registry (std::map<uint64_t, std::shared_ptr<GreetingSession>>) is
embedded as an association list with unique keys; the 64-bit allocator is a
Nat reduced modulo 2 ^ 64 at each increment; the two completion-queue
dispatch loops, the broadcast loop and GreetingServer::stop are embedded as
pure step functions that return the updated state together with the list of
observable calls (process, reply, TryCancel, shutdowns) they perform.
Declarations missing from src/ (the headers common/type.h, GreetingServer.h
and the GreetingSession sources) are modelled from the spec and marked as
such in their doc comments.
-/

/-- Modelled from the spec: the closed event-kind enumeration GrpcEvent is
declared in common/type.h, which is missing from src/; spec section 3 fixes it
to exactly the four kinds CONNECTED, READ_DONE, WRITE_DONE, FINISHED (the
names below match the enumerator names used by src/common/type.cc). -/
inductive GrpcEvent where
  | GRPC_EVENT_CONNECTED
  | GRPC_EVENT_READ_DONE
  | GRPC_EVENT_WRITE_DONE
  | GRPC_EVENT_FINISHED
  deriving DecidableEq

/-- Modelled from the spec: common/type.h (missing from src/) defines the
bit width reserved for the event kind in a tag; spec sections 3 and 4.1 fix
it to exactly the number of bits needed for the event-kind cardinality, and
with four kinds that is 2 bits. -/
def GRPC_EVENT_BIT_LENGTH : Nat := 2

/-- Modelled from the spec: the low-bit mask matching GRPC_EVENT_BIT_LENGTH,
from the missing common/type.h. -/
def GRPC_EVENT_MASK : Nat := 2 ^ GRPC_EVENT_BIT_LENGTH - 1

/-- Modelled from the spec: the underlying integer value of each enumerator
of the missing common/type.h declaration, using default C++ numbering in
declaration order (0, 1, 2, 3), which is the unique assignment that fits the
2-bit field of spec section 3. -/
def GrpcEvent.toCode : GrpcEvent → Nat
  | .GRPC_EVENT_CONNECTED => 0
  | .GRPC_EVENT_READ_DONE => 1
  | .GRPC_EVENT_WRITE_DONE => 2
  | .GRPC_EVENT_FINISHED => 3

/-- The enumerator whose underlying value is n, or none when n lies outside
the four declared enumerators (a C++ enum variable can carry such a value,
but no enumerator corresponds to it). -/
def grpcEventOfCode (n : Nat) : Option GrpcEvent :=
  if n = 0 then some .GRPC_EVENT_CONNECTED
  else if n = 1 then some .GRPC_EVENT_READ_DONE
  else if n = 2 then some .GRPC_EVENT_WRITE_DONE
  else if n = 3 then some .GRPC_EVENT_FINISHED
  else none

/-- Embedding of the switch in operator<<(std::ostream&, GrpcEvent) from
src/common/type.cc lines 3-15: the exact string written to the stream for
each declared event kind. -/
def GrpcEvent.streamName : GrpcEvent → String
  | .GRPC_EVENT_CONNECTED => "GRPC_EVENT_CONNECTED"
  | .GRPC_EVENT_READ_DONE => "GRPC_EVENT_READ_DONE"
  | .GRPC_EVENT_WRITE_DONE => "GRPC_EVENT_WRITE_DONE"
  | .GRPC_EVENT_FINISHED => "GRPC_EVENT_FINISHED"

/-- Result of pushing an arbitrary underlying enum value through the stream
operator of src/common/type.cc: the switch has no default branch, so a value
outside the four declared enumerators reaches the end of the function without
returning a value (modelled as none). -/
def printGrpcEventValue (n : Nat) : Option String :=
  (grpcEventOfCode n).map GrpcEvent.streamName

/-- Modulus of the 64-bit unsigned integers (uint64_t) used for tags and for
the session-identifier allocator. -/
def UINT64_MOD : Nat := 2 ^ 64

/-- Tag decoding as performed by both dispatch loops in
src/server/GreetingServer.cc (lines 35 and 65): the event kind is read from
the tag masked with GRPC_EVENT_MASK, via static_cast to GrpcEvent. -/
def decodeEventOfTag (tag : Nat) : Option GrpcEvent :=
  grpcEventOfCode (tag &&& GRPC_EVENT_MASK)

/-- Tag decoding as performed by both dispatch loops in
src/server/GreetingServer.cc (lines 36 and 66): the session identifier is the
tag shifted right by GRPC_EVENT_BIT_LENGTH. -/
def decodeIdOfTag (tag : Nat) : Nat :=
  tag >>> GRPC_EVENT_BIT_LENGTH

/-- Modelled from the spec: the encoding side of the tag codec lives in the
GreetingSession sources, which are missing from src/; spec section 3 says a
tag is a fixed-width (64-bit) unsigned integer packing the event kind into
the low GRPC_EVENT_BIT_LENGTH bits and the session identifier into the
remaining high bits. -/
def encodeTag (sessionId : Nat) (event : GrpcEvent) : Nat :=
  (sessionId * 2 ^ GRPC_EVENT_BIT_LENGTH + event.toCode) % UINT64_MOD

/-- Modelled from the spec: the session-status enumeration GrpcSessionStatus
is declared in the missing common/type.h; spec section 3 fixes the value set
(WAIT_CONNECT, CONNECTED, CLOSED); src/server/GreetingServer.cc line 120
reads GrpcSessionStatus::WAIT_CONNECT. -/
inductive GrpcSessionStatus where
  | WAIT_CONNECT
  | CONNECTED
  | CLOSED
  deriving DecidableEq

/-- The part of a GreetingSession that src/server/GreetingServer.cc observes:
its identifier and its status_ field (the session's own state machine lives
in the missing GreetingSession sources). -/
structure GreetingSession where
  session_id_ : Nat
  status_ : GrpcSessionStatus
  deriving DecidableEq

/-- The registry map sessions_ (std::map keyed by uint64_t session id),
embedded as an association list; all operations below preserve key
uniqueness, matching std::map semantics. -/
abbrev SessionMap := List (Nat × GreetingSession)

/-- GreetingServer::getSession, src/server/GreetingServer.cc lines 153-158:
look the identifier up in sessions_, returning nullptr (none) when absent. -/
def getSession (sessions : SessionMap) (sessionId : Nat) : Option GreetingSession :=
  match sessions with
  | [] => none
  | p :: rest => if p.1 = sessionId then some p.2 else getSession rest sessionId

/-- GreetingServer::removeSession, src/server/GreetingServer.cc lines
148-151: sessions_.erase(sessionId) under the registry lock. -/
def removeSession (sessions : SessionMap) (sessionId : Nat) : SessionMap :=
  match sessions with
  | [] => []
  | p :: rest =>
    if p.1 = sessionId then removeSession rest sessionId
    else p :: removeSession rest sessionId

/-- Assignment through std::map operator[], as in sessions_[new_session_id] =
new_session (src/server/GreetingServer.cc line 143): binds the key to the
value, replacing any previous binding. -/
def mapAssign (sessions : SessionMap) (sessionId : Nat) (s : GreetingSession) : SessionMap :=
  (sessionId, s) :: removeSession sessions sessionId

/-- The mutable server state the registry operations touch: the uint64_t
identifier allocator session_id_allocator_ and the session map sessions_. -/
structure DispatchState where
  session_id_allocator_ : Nat
  sessions_ : SessionMap
  deriving DecidableEq

/-- GreetingServer::addSession, src/server/GreetingServer.cc lines 135-146:
post-increment the 64-bit allocator, build the new session, return nullptr
without inserting when the session's init() fails, otherwise insert under the
registry lock and return the session. The argument initOk stands for the
result of new_session->init(); the new session starts in WAIT_CONNECT
(spec section 4.6; the GreetingSession sources are missing from src/). -/
def addSession (st : DispatchState) (initOk : Bool) :
    DispatchState × Option GreetingSession :=
  let new_session_id := st.session_id_allocator_
  let allocator' := (st.session_id_allocator_ + 1) % UINT64_MOD
  if initOk then
    let new_session : GreetingSession := ⟨new_session_id, .WAIT_CONNECT⟩
    (⟨allocator', mapAssign st.sessions_ new_session_id new_session⟩, some new_session)
  else
    (⟨allocator', st.sessions_⟩, none)

/-- Body of one iteration of the two dispatch loops of GreetingServer::run,
src/server/GreetingServer.cc lines 34-57 (call completion queue) and lines
64-88 (notification completion queue); the two lambdas have identical
routing logic. Returns the updated session map together with the process
call performed during the iteration, if any: decode the tag; on a FINISHED
event remove the session; otherwise look it up, ignoring the event when the
session is absent; on a not-ok completion remove the session; otherwise call
process(event) under the session's lock. The none branch of the decode is
unreachable because a masked code is always a declared enumerator. -/
def dispatchLoopBody (sessions : SessionMap) (tag : Nat) (ok : Bool) :
    SessionMap × Option (Nat × GrpcEvent) :=
  match decodeEventOfTag tag with
  | none => (sessions, none)
  | some event =>
    let session_id := decodeIdOfTag tag
    if event = .GRPC_EVENT_FINISHED then
      (removeSession sessions session_id, none)
    else
      match getSession sessions session_id with
      | none => (sessions, none)
      | some _ =>
        if ok = false then (removeSession sessions session_id, none)
        else (sessions, some (session_id, event))

/-- One externally triggered step of the server's registry state: an
addSession call (performed at startup and by a connected session arming the
next accept slot), or one event pulled by the call dispatch loop, or one
event pulled by the notification dispatch loop. -/
inductive ServerStep where
  | addSessionStep (initOk : Bool)
  | callEvent (tag : Nat) (ok : Bool)
  | notificationEvent (tag : Nat) (ok : Bool)
  deriving DecidableEq

/-- Effect of one ServerStep on the server state, returning the process call
it performs, if any. -/
def serverStep (st : DispatchState) : ServerStep → DispatchState × Option (Nat × GrpcEvent)
  | .addSessionStep initOk => ((addSession st initOk).1, none)
  | .callEvent tag ok =>
    let r := dispatchLoopBody st.sessions_ tag ok
    (⟨st.session_id_allocator_, r.1⟩, r.2)
  | .notificationEvent tag ok =>
    let r := dispatchLoopBody st.sessions_ tag ok
    (⟨st.session_id_allocator_, r.1⟩, r.2)

/-- Run a sequence of server steps, collecting every process call performed
by the two dispatch loops along the way. -/
def runServer (st : DispatchState) : List ServerStep → DispatchState × List (Nat × GrpcEvent)
  | [] => (st, [])
  | step :: rest =>
    let r := serverStep st step
    let rr := runServer r.1 rest
    (rr.1, r.2.toList ++ rr.2)

/-- Number of addSession calls in a step sequence (the only steps that
advance the identifier allocator). -/
def countAdds : List ServerStep → Nat
  | [] => 0
  | .addSessionStep _ :: rest => countAdds rest + 1
  | .callEvent _ _ :: rest => countAdds rest
  | .notificationEvent _ _ :: rest => countAdds rest

/-- Server state after n successful addSession calls starting from a fresh
server. Modelled from the spec for the initial allocator value: the member
initialiser of session_id_allocator_ is in the missing GreetingServer.h; the
spec (section 3) only requires a monotonically increasing unsigned counter,
so the fresh value is taken to be 0. -/
def serverAfterAdds : Nat → DispatchState
  | 0 => ⟨0, []⟩
  | n + 1 => (addSession (serverAfterAdds n) true).1

/-- The identifier assigned by addSession call number n (counting from 0) on
a fresh server: addSession assigns the current allocator value. -/
def allocatedIdAt (n : Nat) : Nat :=
  (serverAfterAdds n).session_id_allocator_

/-- The cancellation sweep of GreetingServer::stop,
src/server/GreetingServer.cc lines 113-124: iterate the registry under its
lock and, for each session whose status_ is not WAIT_CONNECT, call
server_context_.TryCancel() under the session's lock. Returns the list of
session identifiers receiving a TryCancel call, in iteration order. -/
def cancelSweep : SessionMap → List Nat
  | [] => []
  | p :: rest =>
    if p.2.status_ ≠ GrpcSessionStatus.WAIT_CONNECT then p.1 :: cancelSweep rest
    else cancelSweep rest

/-- One sweep of the broadcast loop body, src/server/GreetingServer.cc lines
95-100: iterate the registry under its lock and call reply() on every entry
under that session's lock. Returns the list of session identifiers receiving
a reply() call, in iteration order. -/
def replySweep : SessionMap → List Nat
  | [] => []
  | p :: rest => p.1 :: replySweep rest

/-- One iteration of the broadcast loop, src/server/GreetingServer.cc lines
91-102: the loop condition checks the running flag; only while it is set does
the loop sleep and then perform a sweep. -/
def broadcastIteration (running : Bool) (sessions : SessionMap) : List Nat :=
  if running then replySweep sessions else []

/-- The observable actions of GreetingServer::stop, in program order. -/
inductive StopAction where
  | clearRunning
  | tryCancel (sessionId : Nat)
  | serverShutdown
  | cqCallShutdown
  | cqNotificationShutdown
  deriving DecidableEq

/-- GreetingServer::stop, src/server/GreetingServer.cc lines 109-133, as the
ordered trace of its effects: return immediately when not running; otherwise
clear running_, TryCancel every non-WAIT_CONNECT session under the registry
lock, then shut down the server, then the call completion queue, then the
notification completion queue. -/
def stopTrace (running : Bool) (sessions : SessionMap) : List StopAction :=
  if running = false then []
  else
    StopAction.clearRunning ::
      ((cancelSweep sessions).map StopAction.tryCancel ++
        [StopAction.serverShutdown, StopAction.cqCallShutdown,
          StopAction.cqNotificationShutdown])

/-! ### Helper lemmas about the codec and the registry -/

theorem grpcEventOfCode_total (n : Nat) (h : n ≤ 3) : ∃ e, grpcEventOfCode n = some e := by
  unfold grpcEventOfCode
  split_ifs <;> first | exact ⟨_, rfl⟩ | omega

theorem decodeEventOfTag_total (tag : Nat) : ∃ e, decodeEventOfTag tag = some e := by
  unfold decodeEventOfTag
  exact grpcEventOfCode_total _ (le_trans Nat.and_le_right (by decide))

theorem and_mask_eq_mod (tag : Nat) : tag &&& GRPC_EVENT_MASK = tag % 4 := by
  rw [show GRPC_EVENT_MASK = 2 ^ 2 - 1 from rfl, Nat.and_pow_two_sub_one_eq_mod]

theorem getSession_removeSession_self (sessions : SessionMap) (sessionId : Nat) :
    getSession (removeSession sessions sessionId) sessionId = none := by
  induction sessions with
  | nil => rfl
  | cons p rest ih =>
    simp only [removeSession]
    split_ifs with h
    · exact ih
    · simp only [getSession, if_neg h]
      exact ih

theorem getSession_removeSession_ne (sessions : SessionMap) (a b : Nat) (h : a ≠ b) :
    getSession (removeSession sessions b) a = getSession sessions a := by
  induction sessions with
  | nil => rfl
  | cons p rest ih =>
    by_cases h1 : p.1 = b
    · simp only [removeSession, if_pos h1, getSession]
      rw [if_neg (by omega : ¬ p.1 = a)]
      exact ih
    · by_cases h2 : p.1 = a
      · simp only [removeSession, if_neg h1, getSession, if_pos h2]
      · simp only [removeSession, if_neg h1, getSession, if_neg h2]
        exact ih

theorem removeSession_of_absent (sessions : SessionMap) (sessionId : Nat)
    (h : getSession sessions sessionId = none) :
    removeSession sessions sessionId = sessions := by
  induction sessions with
  | nil => rfl
  | cons p rest ih =>
    simp only [getSession] at h
    by_cases h1 : p.1 = sessionId
    · rw [if_pos h1] at h
      cases h
    · rw [if_neg h1] at h
      simp only [removeSession, if_neg h1]
      rw [ih h]

theorem getSession_mapAssign_ne (sessions : SessionMap) (a b : Nat) (s : GreetingSession)
    (h : a ≠ b) : getSession (mapAssign sessions b s) a = getSession sessions a := by
  simp only [mapAssign, getSession]
  rw [if_neg (by omega : ¬ b = a)]
  exact getSession_removeSession_ne sessions a b h

/-! ### C1, C8, C10 -/

/-- C1: for every session identifier within the reserved bit width and every
event kind, decoding the encoded tag returns the original pair: the kind is
recovered as tag &&& GRPC_EVENT_MASK and the identifier as
tag >>> GRPC_EVENT_BIT_LENGTH, and the encoding never overflows the
identifier into the kind bits. -/
theorem decode_encode_roundtrip (sessionId : Nat) (event : GrpcEvent)
    (h : sessionId < 2 ^ 62) :
    decodeIdOfTag (encodeTag sessionId event) = sessionId ∧
    decodeEventOfTag (encodeTag sessionId event) = some event := by
  have hc : event.toCode ≤ 3 := by cases event <;> simp [GrpcEvent.toCode]
  have h64 : (2 : Nat) ^ 64 = 4 * 2 ^ 62 := by norm_num
  have henc : encodeTag sessionId event = 4 * sessionId + event.toCode := by
    unfold encodeTag UINT64_MOD
    rw [show (2 : Nat) ^ GRPC_EVENT_BIT_LENGTH = 4 from rfl]
    rw [Nat.mod_eq_of_lt (by omega)]
    ring
  constructor
  · rw [henc]
    unfold decodeIdOfTag
    rw [show GRPC_EVENT_BIT_LENGTH = 2 from rfl, Nat.shiftRight_eq_div_pow]
    rw [show (2 : Nat) ^ 2 = 4 from rfl]
    omega
  · rw [henc]
    unfold decodeEventOfTag
    rw [and_mask_eq_mod]
    rw [show (4 * sessionId + event.toCode) % 4 = event.toCode from by omega]
    cases event <;> rfl

/-- Witness for C1 at session identifier 5 and kind READ_DONE. -/
theorem decode_encode_roundtrip_witness :
    decodeIdOfTag (encodeTag 5 .GRPC_EVENT_READ_DONE) = 5 ∧
    decodeEventOfTag (encodeTag 5 .GRPC_EVENT_READ_DONE) = some .GRPC_EVENT_READ_DONE :=
  decode_encode_roundtrip 5 .GRPC_EVENT_READ_DONE (by norm_num)

/-- C8: removing an absent identifier from the registry is a no-op that
leaves the contents unchanged and raises no error, and removeSession is
idempotent. -/
theorem removeSession_absent_noop (sessions : SessionMap) (sessionId : Nat) :
    (getSession sessions sessionId = none → removeSession sessions sessionId = sessions) ∧
    removeSession (removeSession sessions sessionId) sessionId =
      removeSession sessions sessionId := by
  refine ⟨removeSession_of_absent sessions sessionId, ?_⟩
  exact removeSession_of_absent _ _ (getSession_removeSession_self sessions sessionId)

/-- Witness for C8: removing the absent identifier 2 leaves a concrete
one-entry registry unchanged. -/
theorem removeSession_absent_noop_witness :
    removeSession [(1, ⟨1, .CONNECTED⟩)] 2 = [(1, ⟨1, .CONNECTED⟩)] :=
  (removeSession_absent_noop [(1, ⟨1, .CONNECTED⟩)] 2).1 (by decide)

/-- C10: the stream-print operator of src/common/type.cc writes each declared
event kind's exact enumerator name, and for any underlying value outside the
four declared enumerators the switch has no default branch, so control falls
off the end of the function without producing a value. -/
theorem stream_print_only_declared_kinds (n : Nat) :
    printGrpcEventValue GrpcEvent.GRPC_EVENT_CONNECTED.toCode = some "GRPC_EVENT_CONNECTED" ∧
    printGrpcEventValue GrpcEvent.GRPC_EVENT_READ_DONE.toCode = some "GRPC_EVENT_READ_DONE" ∧
    printGrpcEventValue GrpcEvent.GRPC_EVENT_WRITE_DONE.toCode = some "GRPC_EVENT_WRITE_DONE" ∧
    printGrpcEventValue GrpcEvent.GRPC_EVENT_FINISHED.toCode = some "GRPC_EVENT_FINISHED" ∧
    ((∀ e : GrpcEvent, n ≠ e.toCode) → printGrpcEventValue n = none) := by
  refine ⟨rfl, rfl, rfl, rfl, ?_⟩
  intro hn
  have h0 := hn .GRPC_EVENT_CONNECTED
  have h1 := hn .GRPC_EVENT_READ_DONE
  have h2 := hn .GRPC_EVENT_WRITE_DONE
  have h3 := hn .GRPC_EVENT_FINISHED
  simp only [GrpcEvent.toCode] at h0 h1 h2 h3
  unfold printGrpcEventValue grpcEventOfCode
  rw [if_neg h0, if_neg h1, if_neg h2, if_neg h3]
  rfl

/-- Witness for C10: the underlying value 7 is outside the four declared
enumerators and the print operator produces no value for it. -/
theorem stream_print_only_declared_kinds_witness :
    printGrpcEventValue 7 = none :=
  (stream_print_only_declared_kinds 7).2.2.2.2 (by intro e; cases e <;> decide)

/-! ### C2: dispatch-loop routing -/

/-- C2: for every event (tag, ok) pulled by a dispatch loop: if the decoded
kind is FINISHED or ok is false, the iteration removes the session and makes
no process call; if the decoded session is absent from the registry, the
event is ignored without error; otherwise process is called exactly once on
the looked-up session with the decoded kind; and a process call never
happens with kind FINISHED or with ok false, and only for a session present
in the registry. -/
theorem dispatch_routing (sessions : SessionMap) (tag : Nat) (ok : Bool) :
    (decodeEventOfTag tag = some .GRPC_EVENT_FINISHED ∨ ok = false →
      dispatchLoopBody sessions tag ok =
        (removeSession sessions (decodeIdOfTag tag), none)) ∧
    (decodeEventOfTag tag ≠ some .GRPC_EVENT_FINISHED →
      getSession sessions (decodeIdOfTag tag) = none →
      dispatchLoopBody sessions tag ok = (sessions, none)) ∧
    (∀ event s, decodeEventOfTag tag = some event →
      event ≠ .GRPC_EVENT_FINISHED → ok = true →
      getSession sessions (decodeIdOfTag tag) = some s →
      dispatchLoopBody sessions tag ok =
        (sessions, some (decodeIdOfTag tag, event))) ∧
    (∀ sessionId event,
      (dispatchLoopBody sessions tag ok).2 = some (sessionId, event) →
      event ≠ .GRPC_EVENT_FINISHED ∧ ok = true ∧
      getSession sessions sessionId ≠ none) := by
  obtain ⟨e, he⟩ := decodeEventOfTag_total tag
  by_cases hf : e = GrpcEvent.GRPC_EVENT_FINISHED
  · subst hf
    refine ⟨?_, ?_, ?_, ?_⟩
    · intro _
      simp [dispatchLoopBody, he]
    · intro hne _
      exact absurd he hne
    · intro event s hev hne hok hget
      rw [he] at hev
      cases hev
      exact absurd rfl hne
    · intro sessionId event h2
      simp [dispatchLoopBody, he] at h2
  · cases hget : getSession sessions (decodeIdOfTag tag) with
    | none =>
      refine ⟨?_, ?_, ?_, ?_⟩
      · intro hcase
        rcases hcase with hev | hok
        · rw [he] at hev
          cases hev
          exact absurd rfl hf
        · have hr := removeSession_of_absent _ _ hget
          simp [dispatchLoopBody, he, hf, hget, hr]
      · intro _ _
        simp [dispatchLoopBody, he, hf, hget]
      · intro event s hev hne hok hget2
        exact Option.noConfusion hget2
      · intro sessionId event h2
        simp [dispatchLoopBody, he, hf, hget] at h2
    | some s0 =>
      cases ok with
      | false =>
        refine ⟨?_, ?_, ?_, ?_⟩
        · intro _
          simp [dispatchLoopBody, he, hf, hget]
        · intro _ habs
          exact Option.noConfusion habs
        · intro event s hev hne hok2 hget2
          cases hok2
        · intro sessionId event h2
          simp [dispatchLoopBody, he, hf, hget] at h2
      | true =>
        refine ⟨?_, ?_, ?_, ?_⟩
        · intro hcase
          rcases hcase with hev | hfalse
          · rw [he] at hev
            cases hev
            exact absurd rfl hf
          · cases hfalse
        · intro _ habs
          exact Option.noConfusion habs
        · intro event s hev hne _ hget2
          rw [he] at hev
          cases hev
          simp [dispatchLoopBody, he, hf, hget]
        · intro sessionId event h2
          simp only [dispatchLoopBody, he] at h2
          rw [if_neg hf] at h2
          simp only [hget] at h2
          rw [if_neg (by decide : ¬ (true = false))] at h2
          simp only [Option.some.injEq, Prod.mk.injEq] at h2
          obtain ⟨h4, h5⟩ := h2
          subst h4
          subst h5
          refine ⟨hf, rfl, ?_⟩
          rw [hget]
          intro hc
          exact Option.noConfusion hc

/-- Witness for C2: dispatching a concrete FINISHED tag (tag 3 decodes to
session 0, kind FINISHED) on a one-entry registry removes the session and
makes no process call. -/
theorem dispatch_routing_witness :
    dispatchLoopBody [(0, ⟨0, .CONNECTED⟩)] 3 true =
      (removeSession [(0, ⟨0, .CONNECTED⟩)] (decodeIdOfTag 3), none) :=
  (dispatch_routing [(0, ⟨0, .CONNECTED⟩)] 3 true).1 (Or.inl (by decide))

/-! ### C3, C7: cancellation sweep and broadcast sweep -/

theorem cancelSweep_subset_keys (sessions : SessionMap) :
    ∀ x ∈ cancelSweep sessions, x ∈ sessions.map Prod.fst := by
  induction sessions with
  | nil =>
    intro x hx
    cases hx
  | cons p rest ih =>
    intro x hx
    simp only [cancelSweep] at hx
    split_ifs at hx with h
    · rcases List.mem_cons.mp hx with rfl | hx2
      · simp
      · simp only [List.map_cons, List.mem_cons]
        exact Or.inr (ih x hx2)
    · simp only [List.map_cons, List.mem_cons]
      exact Or.inr (ih x hx)

/-- C3: during the shutdown cancellation sweep over the registry, no session
whose status is WAIT_CONNECT receives a TryCancel call, and every session in
the registry whose status is not WAIT_CONNECT receives exactly one. -/
theorem cancel_sweep_guard (sessions : SessionMap) :
    (sessions.map Prod.fst).Nodup →
    ((∀ p ∈ sessions, p.2.status_ = GrpcSessionStatus.WAIT_CONNECT →
        p.1 ∉ cancelSweep sessions) ∧
      (∀ p ∈ sessions, p.2.status_ ≠ GrpcSessionStatus.WAIT_CONNECT →
        (cancelSweep sessions).count p.1 = 1)) := by
  induction sessions with
  | nil =>
    intro _
    constructor
    · intro p hp
      cases hp
    · intro p hp
      cases hp
  | cons q rest ih =>
    intro hnodup
    simp only [List.map_cons, List.nodup_cons] at hnodup
    obtain ⟨hq, hrest⟩ := hnodup
    obtain ⟨ih1, ih2⟩ := ih hrest
    constructor
    · intro p hp hw
      rcases List.mem_cons.mp hp with heq | hp2
      · subst heq
        have hsw : cancelSweep (p :: rest) = cancelSweep rest := by
          simp [cancelSweep, hw]
        rw [hsw]
        intro hmem
        exact hq (cancelSweep_subset_keys rest _ hmem)
      · by_cases hc : q.2.status_ ≠ GrpcSessionStatus.WAIT_CONNECT
        · have hsw : cancelSweep (q :: rest) = q.1 :: cancelSweep rest := by
            simp [cancelSweep, hc]
          rw [hsw]
          intro hmem
          rcases List.mem_cons.mp hmem with heq2 | hmem2
          · exact hq (heq2 ▸ List.mem_map_of_mem Prod.fst hp2)
          · exact ih1 p hp2 hw hmem2
        · have hw2 : q.2.status_ = GrpcSessionStatus.WAIT_CONNECT := not_not.mp hc
          have hsw : cancelSweep (q :: rest) = cancelSweep rest := by
            simp [cancelSweep, hw2]
          rw [hsw]
          exact ih1 p hp2 hw
    · intro p hp hw
      rcases List.mem_cons.mp hp with heq | hp2
      · subst heq
        have hsw : cancelSweep (p :: rest) = p.1 :: cancelSweep rest := by
          simp [cancelSweep, hw]
        rw [hsw, List.count_cons_self]
        have hnot : p.1 ∉ cancelSweep rest := fun hmem =>
          hq (cancelSweep_subset_keys rest _ hmem)
        rw [List.count_eq_zero_of_not_mem hnot]
      · have hne : p.1 ≠ q.1 := by
          intro heq
          exact hq (heq ▸ List.mem_map_of_mem Prod.fst hp2)
        by_cases hc : q.2.status_ ≠ GrpcSessionStatus.WAIT_CONNECT
        · have hsw : cancelSweep (q :: rest) = q.1 :: cancelSweep rest := by
            simp [cancelSweep, hc]
          rw [hsw, List.count_cons_of_ne hne]
          exact ih2 p hp2 hw
        · have hw2 : q.2.status_ = GrpcSessionStatus.WAIT_CONNECT := not_not.mp hc
          have hsw : cancelSweep (q :: rest) = cancelSweep rest := by
            simp [cancelSweep, hw2]
          rw [hsw]
          exact ih2 p hp2 hw

/-- Witness for C3: in a registry with a WAIT_CONNECT session 1 and a
CONNECTED session 2, session 1 receives no TryCancel call. -/
theorem cancel_sweep_guard_witness :
    (1 : Nat) ∉ cancelSweep [(1, ⟨1, .WAIT_CONNECT⟩), (2, ⟨2, .CONNECTED⟩)] :=
  (cancel_sweep_guard [(1, ⟨1, .WAIT_CONNECT⟩), (2, ⟨2, .CONNECTED⟩)] (by decide)).1
    (1, ⟨1, .WAIT_CONNECT⟩) (by decide) rfl

theorem replySweep_eq_keys (sessions : SessionMap) :
    replySweep sessions = sessions.map Prod.fst := by
  induction sessions with
  | nil => rfl
  | cons p rest ih => simp [replySweep, ih]

/-- C7: one broadcast iteration, executed only while the running flag is set,
calls reply() exactly once on every session currently in the registry, never
calls reply() on an identifier absent from the registry, and performs no
sweep at all when the flag is clear. -/
theorem broadcast_sweep_exactly_once (sessions : SessionMap) (sessionId : Nat) :
    (sessions.map Prod.fst).Nodup →
    ((sessionId ∈ sessions.map Prod.fst →
        (broadcastIteration true sessions).count sessionId = 1) ∧
      (sessionId ∉ sessions.map Prod.fst →
        (broadcastIteration true sessions).count sessionId = 0) ∧
      broadcastIteration false sessions = []) := by
  intro hnodup
  have hb : broadcastIteration true sessions = replySweep sessions := rfl
  refine ⟨?_, ?_, rfl⟩
  · intro hmem
    rw [hb, replySweep_eq_keys]
    exact List.count_eq_one_of_mem hnodup hmem
  · intro hmem
    rw [hb, replySweep_eq_keys]
    exact List.count_eq_zero_of_not_mem hmem

/-- Witness for C7: in a two-session registry, session 2 receives exactly one
reply() call per sweep. -/
theorem broadcast_sweep_exactly_once_witness :
    (broadcastIteration true [(1, ⟨1, .CONNECTED⟩), (2, ⟨2, .CONNECTED⟩)]).count 2 = 1 :=
  ((broadcast_sweep_exactly_once [(1, ⟨1, .CONNECTED⟩), (2, ⟨2, .CONNECTED⟩)] 2
    (by decide)).1 (by decide))

/-! ### C4: shutdown ordering -/

/-- C4: GreetingServer::stop clears the running flag first, then performs the
cancellation sweep, then shuts down the transport listener, then the call
completion queue, then the notification completion queue, in that strict
order; each shutdown action occurs exactly once, so the event sources are
never shut down before the listener. -/
theorem stop_shutdown_order (sessions : SessionMap) :
    (stopTrace true sessions).head? = some StopAction.clearRunning ∧
    (∀ sessionId ∈ cancelSweep sessions,
      List.Sublist
        [StopAction.clearRunning, StopAction.tryCancel sessionId,
          StopAction.serverShutdown, StopAction.cqCallShutdown,
          StopAction.cqNotificationShutdown]
        (stopTrace true sessions)) ∧
    List.Sublist
      [StopAction.clearRunning, StopAction.serverShutdown,
        StopAction.cqCallShutdown, StopAction.cqNotificationShutdown]
      (stopTrace true sessions) ∧
    (stopTrace true sessions).count StopAction.clearRunning = 1 ∧
    (stopTrace true sessions).count StopAction.serverShutdown = 1 ∧
    (stopTrace true sessions).count StopAction.cqCallShutdown = 1 ∧
    (stopTrace true sessions).count StopAction.cqNotificationShutdown = 1 ∧
    (∀ sessionId, StopAction.tryCancel sessionId ∈ stopTrace true sessions ↔
      sessionId ∈ cancelSweep sessions) := by
  have ht : stopTrace true sessions =
      StopAction.clearRunning ::
        ((cancelSweep sessions).map StopAction.tryCancel ++
          [StopAction.serverShutdown, StopAction.cqCallShutdown,
            StopAction.cqNotificationShutdown]) := rfl
  have hmapcount : ∀ x : StopAction, (∀ a : Nat, x ≠ StopAction.tryCancel a) →
      ((cancelSweep sessions).map StopAction.tryCancel).count x = 0 := by
    intro x hx
    apply List.count_eq_zero_of_not_mem
    intro hmem
    obtain ⟨a, _, h2⟩ := List.mem_map.mp hmem
    exact hx a h2.symm
  rw [ht]
  refine ⟨rfl, ?_, ?_, ?_, ?_, ?_, ?_, ?_⟩
  · intro sessionId hmem
    apply List.Sublist.cons₂
    exact List.Sublist.append
      (List.singleton_sublist.mpr (List.mem_map_of_mem _ hmem))
      (List.Sublist.refl _)
  · apply List.Sublist.cons₂
    exact List.sublist_append_right _ _
  · rw [List.count_cons_self, List.count_append,
      hmapcount StopAction.clearRunning (fun a => by intro h; cases h)]
    decide
  · rw [List.count_cons_of_ne (by intro h; cases h), List.count_append,
      hmapcount StopAction.serverShutdown (fun a => by intro h; cases h)]
    decide
  · rw [List.count_cons_of_ne (by intro h; cases h), List.count_append,
      hmapcount StopAction.cqCallShutdown (fun a => by intro h; cases h)]
    decide
  · rw [List.count_cons_of_ne (by intro h; cases h), List.count_append,
      hmapcount StopAction.cqNotificationShutdown (fun a => by intro h; cases h)]
    decide
  · intro sessionId
    constructor
    · intro hmem
      rcases List.mem_cons.mp hmem with heq | hmem2
      · exact absurd heq (by simp)
      · rcases List.mem_append.mp hmem2 with hmap2 | hrest
        · obtain ⟨a, ha, heq⟩ := List.mem_map.mp hmap2
          cases heq
          exact ha
        · simp at hrest
    · intro hmem
      exact List.mem_cons.mpr
        (Or.inr (List.mem_append.mpr (Or.inl (List.mem_map_of_mem _ hmem))))

/-- Witness for C4: on a concrete one-session CONNECTED registry, the trace
contains clear-running, the TryCancel of session 2, and the three shutdowns
as a subsequence in the required order. -/
theorem stop_shutdown_order_witness :
    List.Sublist
      [StopAction.clearRunning, StopAction.tryCancel 2, StopAction.serverShutdown,
        StopAction.cqCallShutdown, StopAction.cqNotificationShutdown]
      (stopTrace true [(2, ⟨2, .CONNECTED⟩)]) :=
  (stop_shutdown_order [(2, ⟨2, .CONNECTED⟩)]).2.1 2 (by decide)

/-! ### Trace lemmas for the allocator and removal permanence -/

theorem runServer_cons (st : DispatchState) (step : ServerStep) (rest : List ServerStep) :
    runServer st (step :: rest) =
      ((runServer (serverStep st step).1 rest).1,
        (serverStep st step).2.toList ++ (runServer (serverStep st step).1 rest).2) := rfl

theorem addSession_allocator (st : DispatchState) (b : Bool) :
    (addSession st b).1.session_id_allocator_ =
      (st.session_id_allocator_ + 1) % UINT64_MOD := by
  cases b <;> rfl

theorem addSession_returns_allocator (st : DispatchState) :
    (addSession st true).2 = some ⟨st.session_id_allocator_, .WAIT_CONNECT⟩ := rfl

theorem dispatchLoopBody_absent_preserved (sessions : SessionMap) (tag : Nat) (ok : Bool)
    (sessionId : Nat) (h : getSession sessions sessionId = none) :
    getSession (dispatchLoopBody sessions tag ok).1 sessionId = none ∧
    ∀ a ∈ (dispatchLoopBody sessions tag ok).2.toList, a.1 ≠ sessionId := by
  obtain ⟨e, he⟩ := decodeEventOfTag_total tag
  have hremove : getSession (removeSession sessions (decodeIdOfTag tag)) sessionId = none := by
    by_cases hs : decodeIdOfTag tag = sessionId
    · rw [hs]
      exact getSession_removeSession_self _ _
    · rw [getSession_removeSession_ne _ _ _ (fun heq => hs heq.symm)]
      exact h
  by_cases hf : e = GrpcEvent.GRPC_EVENT_FINISHED
  · subst hf
    have hb : dispatchLoopBody sessions tag ok =
        (removeSession sessions (decodeIdOfTag tag), none) := by
      simp [dispatchLoopBody, he]
    rw [hb]
    refine ⟨hremove, ?_⟩
    intro a ha
    cases ha
  · cases hget : getSession sessions (decodeIdOfTag tag) with
    | none =>
      have hb : dispatchLoopBody sessions tag ok = (sessions, none) := by
        simp [dispatchLoopBody, he, hf, hget]
      rw [hb]
      refine ⟨h, ?_⟩
      intro a ha
      cases ha
    | some s0 =>
      cases ok with
      | false =>
        have hb : dispatchLoopBody sessions tag false =
            (removeSession sessions (decodeIdOfTag tag), none) := by
          simp [dispatchLoopBody, he, hf, hget]
        rw [hb]
        refine ⟨hremove, ?_⟩
        intro a ha
        cases ha
      | true =>
        have hb : dispatchLoopBody sessions tag true =
            (sessions, some (decodeIdOfTag tag, e)) := by
          simp [dispatchLoopBody, he, hf, hget]
        rw [hb]
        refine ⟨h, ?_⟩
        intro a ha
        simp only [Option.toList, List.mem_singleton] at ha
        subst ha
        intro heq
        replace heq : decodeIdOfTag tag = sessionId := heq
        rw [heq] at hget
        rw [h] at hget
        exact Option.noConfusion hget

theorem absent_id_stays_absent (sessionId : Nat) (steps : List ServerStep) :
    ∀ st : DispatchState,
      (countAdds steps = 0 ∨ sessionId < st.session_id_allocator_) →
      st.session_id_allocator_ + countAdds steps ≤ UINT64_MOD →
      getSession st.sessions_ sessionId = none →
      getSession (runServer st steps).1.sessions_ sessionId = none ∧
      ∀ a ∈ (runServer st steps).2, a.1 ≠ sessionId := by
  have hM : 0 < UINT64_MOD := by norm_num [UINT64_MOD]
  induction steps with
  | nil =>
    intro st _ _ habs
    refine ⟨habs, ?_⟩
    intro a ha
    cases ha
  | cons step rest ih =>
    intro st hidx hnw habs
    rw [runServer_cons]
    cases step with
    | addSessionStep initOk =>
      have hcount : countAdds (ServerStep.addSessionStep initOk :: rest) =
          countAdds rest + 1 := rfl
      rw [hcount] at hnw
      have hlt : sessionId < st.session_id_allocator_ := by
        rcases hidx with h0 | hgt
        · rw [hcount] at h0
          omega
        · exact hgt
      have habs2 : getSession (addSession st initOk).1.sessions_ sessionId = none := by
        cases initOk with
        | false => exact habs
        | true =>
          have hb : (addSession st true).1.sessions_ =
              mapAssign st.sessions_ st.session_id_allocator_
                ⟨st.session_id_allocator_, .WAIT_CONNECT⟩ := rfl
          rw [hb, getSession_mapAssign_ne _ _ _ _ (by omega)]
          exact habs
      have hstep : (serverStep st (ServerStep.addSessionStep initOk)).1 =
          (addSession st initOk).1 := rfl
      by_cases h1 : st.session_id_allocator_ + 1 < UINT64_MOD
      · have halloc : (addSession st initOk).1.session_id_allocator_ =
            st.session_id_allocator_ + 1 := by
          rw [addSession_allocator, Nat.mod_eq_of_lt h1]
        have h := ih (addSession st initOk).1 (Or.inr (by rw [halloc]; omega))
          (by rw [halloc]; omega) habs2
        rw [hstep]
        refine ⟨h.1, ?_⟩
        intro a ha
        rcases List.mem_append.mp ha with ha1 | ha2
        · cases ha1
        · exact h.2 a ha2
      · have hc0 : countAdds rest = 0 := by omega
        have hmod : (addSession st initOk).1.session_id_allocator_ < UINT64_MOD := by
          rw [addSession_allocator]
          exact Nat.mod_lt _ hM
        have h := ih (addSession st initOk).1 (Or.inl hc0) (by omega) habs2
        rw [hstep]
        refine ⟨h.1, ?_⟩
        intro a ha
        rcases List.mem_append.mp ha with ha1 | ha2
        · cases ha1
        · exact h.2 a ha2
    | callEvent tag ok =>
      have hd := dispatchLoopBody_absent_preserved st.sessions_ tag ok sessionId habs
      have hstep1 : (serverStep st (ServerStep.callEvent tag ok)).1.sessions_ =
          (dispatchLoopBody st.sessions_ tag ok).1 := rfl
      have hstep2 : (serverStep st (ServerStep.callEvent tag ok)).1.session_id_allocator_ =
          st.session_id_allocator_ := rfl
      have hcount : countAdds (ServerStep.callEvent tag ok :: rest) = countAdds rest := rfl
      rw [hcount] at hnw
      have h := ih (serverStep st (ServerStep.callEvent tag ok)).1
        (by rw [hstep2]; rcases hidx with h0 | hgt
            · rw [hcount] at h0
              exact Or.inl h0
            · exact Or.inr hgt)
        (by rw [hstep2]; exact hnw)
        (by rw [hstep1]; exact hd.1)
      refine ⟨h.1, ?_⟩
      intro a ha
      rcases List.mem_append.mp ha with ha1 | ha2
      · exact hd.2 a ha1
      · exact h.2 a ha2
    | notificationEvent tag ok =>
      have hd := dispatchLoopBody_absent_preserved st.sessions_ tag ok sessionId habs
      have hstep1 : (serverStep st (ServerStep.notificationEvent tag ok)).1.sessions_ =
          (dispatchLoopBody st.sessions_ tag ok).1 := rfl
      have hstep2 :
          (serverStep st (ServerStep.notificationEvent tag ok)).1.session_id_allocator_ =
          st.session_id_allocator_ := rfl
      have hcount : countAdds (ServerStep.notificationEvent tag ok :: rest) =
          countAdds rest := rfl
      rw [hcount] at hnw
      have h := ih (serverStep st (ServerStep.notificationEvent tag ok)).1
        (by rw [hstep2]; rcases hidx with h0 | hgt
            · rw [hcount] at h0
              exact Or.inl h0
            · exact Or.inr hgt)
        (by rw [hstep2]; exact hnw)
        (by rw [hstep1]; exact hd.1)
      refine ⟨h.1, ?_⟩
      intro a ha
      rcases List.mem_append.mp ha with ha1 | ha2
      · exact hd.2 a ha1
      · exact h.2 a ha2

theorem dispatch_terminal_removes (sessions : SessionMap) (tag : Nat) (ok : Bool)
    (hfin : decodeEventOfTag tag = some .GRPC_EVENT_FINISHED ∨ ok = false) :
    getSession (dispatchLoopBody sessions tag ok).1 (decodeIdOfTag tag) = none := by
  obtain ⟨e, he⟩ := decodeEventOfTag_total tag
  by_cases hf : e = GrpcEvent.GRPC_EVENT_FINISHED
  · subst hf
    have hb : dispatchLoopBody sessions tag ok =
        (removeSession sessions (decodeIdOfTag tag), none) := by
      simp [dispatchLoopBody, he]
    rw [hb]
    exact getSession_removeSession_self _ _
  · rcases hfin with hev | hok
    · rw [he] at hev
      cases hev
      exact absurd rfl hf
    · subst hok
      cases hget : getSession sessions (decodeIdOfTag tag) with
      | none =>
        have hb : dispatchLoopBody sessions tag false = (sessions, none) := by
          simp [dispatchLoopBody, he, hf, hget]
        rw [hb]
        exact hget
      | some s0 =>
        have hb : dispatchLoopBody sessions tag false =
            (removeSession sessions (decodeIdOfTag tag), none) := by
          simp [dispatchLoopBody, he, hf, hget]
        rw [hb]
        exact getSession_removeSession_self _ _

/-! ### C5: permanence of removal -/

/-- C5: once a FINISHED event or a not-ok completion has been dispatched for
a session by either dispatch loop, every subsequent registry lookup of that
identifier returns absent, and no subsequent step of either dispatch loop
makes a process call for it, for any interleaving of addSession calls and
dispatched events in which the 64-bit identifier allocator does not wrap
(the spec declares identifier-space exhaustion fatal). -/
theorem finished_session_stays_removed
    (st : DispatchState) (e0 : ServerStep) (tag : Nat) (ok : Bool)
    (steps : List ServerStep)
    (he0 : e0 = ServerStep.callEvent tag ok ∨ e0 = ServerStep.notificationEvent tag ok)
    (hfin : decodeEventOfTag tag = some .GRPC_EVENT_FINISHED ∨ ok = false)
    (hlt : decodeIdOfTag tag < st.session_id_allocator_)
    (hnw : st.session_id_allocator_ + countAdds steps ≤ UINT64_MOD) :
    getSession (serverStep st e0).1.sessions_ (decodeIdOfTag tag) = none ∧
    getSession (runServer (serverStep st e0).1 steps).1.sessions_
      (decodeIdOfTag tag) = none ∧
    ∀ a ∈ (runServer (serverStep st e0).1 steps).2, a.1 ≠ decodeIdOfTag tag := by
  rcases he0 with rfl | rfl
  · have h1 : getSession (serverStep st (ServerStep.callEvent tag ok)).1.sessions_
        (decodeIdOfTag tag) = none :=
      dispatch_terminal_removes st.sessions_ tag ok hfin
    have h2 := absent_id_stays_absent (decodeIdOfTag tag) steps
      (serverStep st (ServerStep.callEvent tag ok)).1 (Or.inr hlt) hnw h1
    exact ⟨h1, h2.1, h2.2⟩
  · have h1 : getSession (serverStep st (ServerStep.notificationEvent tag ok)).1.sessions_
        (decodeIdOfTag tag) = none :=
      dispatch_terminal_removes st.sessions_ tag ok hfin
    have h2 := absent_id_stays_absent (decodeIdOfTag tag) steps
      (serverStep st (ServerStep.notificationEvent tag ok)).1 (Or.inr hlt) hnw h1
    exact ⟨h1, h2.1, h2.2⟩

/-- Witness for C5: tag 3 decodes to session 0 with kind FINISHED; after the
call loop dispatches it on a registry holding session 0, the lookup of
session 0 stays absent across a subsequent addSession step. -/
theorem finished_session_stays_removed_witness :
    getSession
      (runServer (serverStep ⟨1, [(0, ⟨0, .CONNECTED⟩)]⟩
        (ServerStep.callEvent 3 true)).1
        [ServerStep.addSessionStep true]).1.sessions_ (decodeIdOfTag 3) = none :=
  (finished_session_stays_removed ⟨1, [(0, ⟨0, .CONNECTED⟩)]⟩
    (ServerStep.callEvent 3 true) 3 true [ServerStep.addSessionStep true]
    (Or.inl rfl) (Or.inl (by decide)) (by decide) (by decide)).2.1

/-! ### C6: identifier allocation -/

theorem allocatorAfter_eq (n : Nat) :
    (serverAfterAdds n).session_id_allocator_ = n % UINT64_MOD := by
  induction n with
  | zero => simp [serverAfterAdds]
  | succ n ih =>
    rw [show serverAfterAdds (n + 1) = (addSession (serverAfterAdds n) true).1 from rfl,
      addSession_allocator, ih, Nat.mod_add_mod]

theorem allocatedIdAt_eq (n : Nat) : allocatedIdAt n = n % UINT64_MOD :=
  allocatorAfter_eq n

/-- C6 counterexample: the uint64_t allocator wraps. On a fresh server,
addSession call number 2^64 (counting calls from 0) allocates identifier 0,
the same identifier allocated by call number 0: the identifier is reused and
is not strictly greater than every previously allocated one. -/
theorem session_id_wrap_counterexample :
    allocatedIdAt 0 = 0 ∧ allocatedIdAt (2 ^ 64) = 0 ∧
    ¬ (allocatedIdAt 0 < allocatedIdAt (2 ^ 64)) := by
  have h0 : allocatedIdAt 0 = 0 := rfl
  have h1 : allocatedIdAt (2 ^ 64) = 0 := by
    rw [allocatedIdAt_eq]
    simp [UINT64_MOD]
  refine ⟨h0, h1, ?_⟩
  rw [h0, h1]
  omega

/-- C6 amended: as long as fewer than 2^64 identifiers are allocated over
the server's lifetime (the 64-bit allocator does not wrap; the spec declares
identifier-space exhaustion fatal), identifiers are strictly increasing
across addSession calls — every call allocates an identifier strictly
greater than every previously allocated one — and hence never reused. -/
theorem session_id_monotone (m n : Nat) (hmn : m < n) (hn : n < 2 ^ 64) :
    allocatedIdAt m < allocatedIdAt n := by
  rw [allocatedIdAt_eq, allocatedIdAt_eq]
  unfold UINT64_MOD
  rw [Nat.mod_eq_of_lt hn, Nat.mod_eq_of_lt (lt_trans hmn hn)]
  exact hmn

/-- Witness for the amended C6: call 1 allocates a strictly greater
identifier than call 0. -/
theorem session_id_monotone_witness :
    allocatedIdAt 0 < allocatedIdAt 1 :=
  session_id_monotone 0 1 (by decide) (by norm_num)

/-! ### C9: addSession failure path -/

/-- C9: when the new session's init() fails, addSession returns null and
inserts nothing (the registry is unchanged), but the allocator has already
been post-incremented, so the allocated identifier is skipped: it is absent
from the registry and, provided the allocator does not wrap over the
subsequent steps, it is never associated with any session nor receives any
process call. -/
theorem addSession_failure (st : DispatchState) (steps : List ServerStep)
    (habs : getSession st.sessions_ st.session_id_allocator_ = none)
    (hnw : st.session_id_allocator_ + 1 + countAdds steps ≤ UINT64_MOD) :
    (addSession st false).2 = none ∧
    (addSession st false).1.sessions_ = st.sessions_ ∧
    (addSession st false).1.session_id_allocator_ =
      (st.session_id_allocator_ + 1) % UINT64_MOD ∧
    getSession (runServer (addSession st false).1 steps).1.sessions_
      st.session_id_allocator_ = none ∧
    ∀ a ∈ (runServer (addSession st false).1 steps).2,
      a.1 ≠ st.session_id_allocator_ := by
  have hM : 0 < UINT64_MOD := by norm_num [UINT64_MOD]
  have key : getSession (runServer (addSession st false).1 steps).1.sessions_
      st.session_id_allocator_ = none ∧
      ∀ a ∈ (runServer (addSession st false).1 steps).2,
        a.1 ≠ st.session_id_allocator_ := by
    by_cases h1 : st.session_id_allocator_ + 1 < UINT64_MOD
    · have halloc : (addSession st false).1.session_id_allocator_ =
          st.session_id_allocator_ + 1 := by
        rw [addSession_allocator, Nat.mod_eq_of_lt h1]
      exact absent_id_stays_absent st.session_id_allocator_ steps (addSession st false).1
        (Or.inr (by rw [halloc]; omega)) (by rw [halloc]; omega) habs
    · have hc0 : countAdds steps = 0 := by omega
      have hmod : (addSession st false).1.session_id_allocator_ < UINT64_MOD := by
        rw [addSession_allocator]
        exact Nat.mod_lt _ hM
      exact absent_id_stays_absent st.session_id_allocator_ steps (addSession st false).1
        (Or.inl hc0) (by omega) habs
  exact ⟨rfl, rfl, rfl, key.1, key.2⟩

/-- Witness for C9 on a fresh server: the failed call returns null and the
skipped identifier 0 stays absent across a subsequent successful add. -/
theorem addSession_failure_witness :
    (addSession ⟨0, []⟩ false).2 = none ∧
    getSession (runServer (addSession ⟨0, []⟩ false).1
      [ServerStep.addSessionStep true]).1.sessions_ 0 = none := by
  have h := addSession_failure ⟨0, []⟩ [ServerStep.addSessionStep true]
    (by decide) (by decide)
  exact ⟨h.1, h.2.2.2.1⟩
